import Mathlib

/-!
Verification development for the silk selector core: the `Selector` value
model and the `SelectorGroup` ordered-fallback execution combinator.

The repository ships the test suite for `silk.selectors.selector` but not the
module itself, so the definitions below are modelled from the specification's
words (each doc comment says so); the tests' names (`SelectorType`, `type`,
`value`, `timeout`, `css`, `xpath`, `text`, `create`, `create_mixed`,
`execute`) are kept.
-/

namespace Silk

/-- Modelled from the spec: the closed enumeration of selector kinds
(`SelectorType` in the tests): `CSS`, `XPATH`, `TEXT`. -/
inductive SelectorType where
  | CSS
  | XPATH
  | TEXT
deriving DecidableEq

/-- Modelled from the spec: the lowercase token naming each kind; used by the
canonical string form and (case-insensitively) by kind-token parsing. -/
def SelectorType.token : SelectorType → String
  | SelectorType.CSS => "css"
  | SelectorType.XPATH => "xpath"
  | SelectorType.TEXT => "text"

/-- Modelled from the spec: `Selector`, an immutable value object holding a
kind, a locator string and an advisory optional timeout. -/
structure Selector where
  type : SelectorType
  value : String
  timeout : Option Nat
deriving DecidableEq

/-- Modelled from the spec: construction of a `Selector` with the timeout
argument omitted; the stored timeout defaults to `none` (Python `None`). -/
def Selector.mkDefault (type : SelectorType) (value : String) : Selector :=
  ⟨type, value, none⟩

/-- Modelled from the spec: `css(value, timeout?)` builds a Selector of kind CSS. -/
def css (value : String) (timeout : Option Nat) : Selector :=
  ⟨SelectorType.CSS, value, timeout⟩

/-- Modelled from the spec: `xpath(value, timeout?)` builds a Selector of kind XPATH. -/
def xpath (value : String) (timeout : Option Nat) : Selector :=
  ⟨SelectorType.XPATH, value, timeout⟩

/-- Modelled from the spec: `text(value, timeout?)` builds a Selector of kind TEXT. -/
def text (value : String) (timeout : Option Nat) : Selector :=
  ⟨SelectorType.TEXT, value, timeout⟩

/-- Modelled from the spec: the accessor `get_type()`. -/
def Selector.get_type (s : Selector) : SelectorType := s.type

/-- Modelled from the spec: the accessor `get_value()`. -/
def Selector.get_value (s : Selector) : String := s.value

/-- Modelled from the spec: the accessor `get_timeout()`, returning the stored
timeout exactly. -/
def Selector.get_timeout (s : Selector) : Option Nat := s.timeout

/-- Modelled from the spec: the predicate `is_css()`, determined solely by the kind. -/
def Selector.is_css (s : Selector) : Bool := s.type == SelectorType.CSS

/-- Modelled from the spec: the predicate `is_xpath()`, determined solely by the kind. -/
def Selector.is_xpath (s : Selector) : Bool := s.type == SelectorType.XPATH

/-- Modelled from the spec: the predicate `is_text()`, determined solely by the kind. -/
def Selector.is_text (s : Selector) : Bool := s.type == SelectorType.TEXT

/-- Modelled from the spec: Selector equality compares kind and value only; the
timeout is advisory metadata and does not participate (the spec states this
choice explicitly). -/
def Selector.equals (a b : Selector) : Bool :=
  a.type == b.type && a.value == b.value

/-- Modelled from the spec: the canonical string form `"<kind>:<value>"`. The
two source tests disagree on the separator (":" versus "-"); the spec mandates
picking exactly one canonical form, and this model picks ":". -/
def Selector.strForm (s : Selector) : String :=
  s.type.token ++ ":" ++ s.value

/-- Lowercasing of a string, character by character (the character-list model
of `String.toLower`). -/
def lowerString (s : String) : String :=
  ⟨s.data.map Char.toLower⟩

/-- Modelled from the spec: case-insensitive parsing of a string kind token
into a known `SelectorType`; unknown tokens are rejected with `none`. -/
def parseKindToken (token : String) : Option SelectorType :=
  if lowerString token == "css" then some SelectorType.CSS
  else if lowerString token == "xpath" then some SelectorType.XPATH
  else if lowerString token == "text" then some SelectorType.TEXT
  else none

/-- Modelled from the spec: a free-form descriptor accepted by mixed group
construction: a bare string, a `(value, kind)` pair with a typed kind, a
`(value, token)` pair with a string kind token, an already-built Selector, or
any other runtime value (`other`). -/
inductive Descriptor where
  | str (s : String)
  | pairKind (value : String) (kind : SelectorType)
  | pairToken (value : String) (token : String)
  | sel (s : Selector)
  | other
deriving DecidableEq

/-- Whether a descriptor is one of the accepted shapes with a known kind token. -/
def Descriptor.isValid : Descriptor → Bool
  | Descriptor.str _ => true
  | Descriptor.pairKind _ _ => true
  | Descriptor.pairToken _ t => (parseKindToken t).isSome
  | Descriptor.sel _ => true
  | Descriptor.other => false

/-- Modelled from the spec: the construction-time error taxonomy
(`InvalidSelectorKind`, `InvalidSelectorDescriptor`, `EmptyGroupError`). -/
inductive ConstructionError where
  | invalidSelectorKind (token : String)
  | invalidSelectorDescriptor
  | emptyGroup (name : String)
deriving DecidableEq

/-- Modelled from the spec: normalization of one free-form descriptor. A bare
string becomes a CSS Selector of that value; a pair becomes a Selector of the
named kind (an unknown string token fails with `InvalidSelectorKind`); an
already-built Selector passes through unchanged; anything else fails with
`InvalidSelectorDescriptor`. -/
def normalizeDescriptor : Descriptor → Except ConstructionError Selector
  | Descriptor.str s => Except.ok ⟨SelectorType.CSS, s, none⟩
  | Descriptor.pairKind v k => Except.ok ⟨k, v, none⟩
  | Descriptor.pairToken v t =>
    match parseKindToken t with
    | some k => Except.ok ⟨k, v, none⟩
    | none => Except.error (ConstructionError.invalidSelectorKind t)
  | Descriptor.sel s => Except.ok s
  | Descriptor.other => Except.error ConstructionError.invalidSelectorDescriptor

/-- Modelled from the spec: normalize a list of descriptors left to right,
failing on the first invalid one; construction is atomic, so either every
descriptor normalizes or the whole list fails with that first error. -/
def normalizeAll : List Descriptor → Except ConstructionError (List Selector)
  | [] => Except.ok []
  | d :: ds =>
    match normalizeDescriptor d with
    | Except.error e => Except.error e
    | Except.ok s =>
      match normalizeAll ds with
      | Except.error e => Except.error e
      | Except.ok ss => Except.ok (s :: ss)

/-- Modelled from the spec: `SelectorGroup`, a named ordered sequence of
Selectors (order is priority: earlier is preferred). -/
structure SelectorGroup where
  name : String
  selectors : List Selector
deriving DecidableEq

/-- Modelled from the spec: the primary factory
`SelectorGroup.create(name, s_1, ..., s_n)` over already-built Selectors;
fails with `EmptyGroupError` when `n = 0`. -/
def SelectorGroup.create (name : String) (sels : List Selector) :
    Except ConstructionError SelectorGroup :=
  match sels with
  | [] => Except.error (ConstructionError.emptyGroup name)
  | _ => Except.ok ⟨name, sels⟩

/-- Modelled from the spec: the mixed constructor
`SelectorGroup(name, descriptor_1, ..., descriptor_n)`: fails with
`EmptyGroupError` when no descriptors are supplied, otherwise normalizes every
descriptor (atomically, preserving input order) and builds the group. -/
def SelectorGroup.create_mixed (name : String) (ds : List Descriptor) :
    Except ConstructionError SelectorGroup :=
  match ds with
  | [] => Except.error (ConstructionError.emptyGroup name)
  | _ =>
    match normalizeAll ds with
    | Except.error e => Except.error e
    | Except.ok ss => Except.ok ⟨name, ss⟩

/-- Modelled from the spec: the success/failure outcome type of the externally
supplied resolution capability (the expression library's `Ok`/`Error` result). -/
inductive Result (ε α : Type) where
  | ok (value : α)
  | error (err : ε)
deriving DecidableEq

/-- Whether a resolution outcome is a success. -/
def Result.isOk : Result ε α → Bool
  | Result.ok _ => true
  | Result.error _ => false

/-- Modelled from the spec: the aggregate failure returned when every selector
in a group fails; its message names the group. Per-selector failures are never
surfaced individually: this is the only failure `execute` can return. -/
structure GroupExhaustionError where
  message : String
deriving DecidableEq

/-- Modelled from the spec: the literal aggregate failure message, naming the
group. -/
def aggregateMessage (name : String) : String :=
  "All selectors in group '" ++ name ++ "' failed"

/-- Modelled from the spec: the sequential fallback loop of `execute`,
instrumented with the invocation trace. It offers each selector of the list to
`resolve` in stored order; on the first success it stops and passes that
success value through; on exhaustion it returns the aggregate failure. The
first component is the list of selectors on which `resolve` was invoked, in
invocation order; the second is the returned result. -/
def executeSteps (name : String) (resolve : Selector → Result ε α) :
    List Selector → List Selector × Result GroupExhaustionError α
  | [] => ([], Result.error ⟨aggregateMessage name⟩)
  | s :: rest =>
    match resolve s with
    | Result.ok v => ([s], Result.ok v)
    | Result.error _ =>
      (s :: (executeSteps name resolve rest).1, (executeSteps name resolve rest).2)

/-- Modelled from the spec: `SelectorGroup.execute(resolve)`: sequential
fallback over the group's selectors in stored order, short-circuiting on the
first success and aggregating total failure. -/
def SelectorGroup.execute (g : SelectorGroup) (resolve : Selector → Result ε α) :
    Result GroupExhaustionError α :=
  (executeSteps g.name resolve g.selectors).2

/-- The selectors on which `execute` invokes `resolve`, in invocation order. -/
def SelectorGroup.attempts (g : SelectorGroup) (resolve : Selector → Result ε α) :
    List Selector :=
  (executeSteps g.name resolve g.selectors).1

/-- A concrete resolution function for examples: succeeds on the value ".b"
with "X", fails elsewhere. -/
def demoResolve : Selector → Result String String :=
  fun s => if s.value == ".b" then Result.ok "X" else Result.error "no element"

/-- A concrete resolution function for examples: always fails. -/
def failResolve : Selector → Result String String :=
  fun _ => Result.error "no element"

/-- Concrete mixed descriptors for examples (the spec's mixed-normalization
scenario). -/
def demoDescriptors : List Descriptor :=
  [Descriptor.str ".a", Descriptor.sel (css ".b" none),
   Descriptor.pairToken "//p" "xpath", Descriptor.pairKind "hi" SelectorType.TEXT]

/-- Concrete descriptors for examples, one of them carrying an unknown kind
token. -/
def badDescriptors : List Descriptor :=
  [Descriptor.str ".a", Descriptor.pairToken "//p" "not-a-kind"]

theorem isOk_true_exists {ε α : Type} {r : Result ε α} (h : r.isOk = true) :
    ∃ v, r = Result.ok v := by
  cases r with
  | ok v => exact ⟨v, rfl⟩
  | error e => simp [Result.isOk] at h

theorem isOk_false_exists {ε α : Type} {r : Result ε α} (h : r.isOk = false) :
    ∃ e, r = Result.error e := by
  cases r with
  | ok v => simp [Result.isOk] at h
  | error e => exact ⟨e, rfl⟩

theorem normalizeAll_cons_ok (d : Descriptor) (ds : List Descriptor) (s : Selector)
    (ss : List Selector) (hd : normalizeDescriptor d = Except.ok s)
    (hds : normalizeAll ds = Except.ok ss) :
    normalizeAll (d :: ds) = Except.ok (s :: ss) := by
  simp [normalizeAll, hd, hds]

theorem normalizeAll_cons_err_head (d : Descriptor) (ds : List Descriptor)
    (e : ConstructionError) (hd : normalizeDescriptor d = Except.error e) :
    normalizeAll (d :: ds) = Except.error e := by
  simp [normalizeAll, hd]

theorem normalizeAll_cons_err_tail (d : Descriptor) (ds : List Descriptor) (s : Selector)
    (e : ConstructionError) (hd : normalizeDescriptor d = Except.ok s)
    (hds : normalizeAll ds = Except.error e) :
    normalizeAll (d :: ds) = Except.error e := by
  simp [normalizeAll, hd, hds]

theorem normalizeAll_cons_ok_inv (d : Descriptor) (ds : List Descriptor)
    (out : List Selector) (h : normalizeAll (d :: ds) = Except.ok out) :
    ∃ s ss, normalizeDescriptor d = Except.ok s ∧ normalizeAll ds = Except.ok ss ∧
      out = s :: ss := by
  cases hd : normalizeDescriptor d with
  | error e => rw [normalizeAll_cons_err_head d ds e hd] at h; simp at h
  | ok s =>
    cases hds : normalizeAll ds with
    | error e => rw [normalizeAll_cons_err_tail d ds s e hd hds] at h; simp at h
    | ok ss =>
      rw [normalizeAll_cons_ok d ds s ss hd hds] at h
      injection h with h2
      exact ⟨s, ss, rfl, rfl, h2.symm⟩

theorem normalizeAll_length (ds : List Descriptor) (ss : List Selector)
    (h : normalizeAll ds = Except.ok ss) : ss.length = ds.length := by
  induction ds generalizing ss with
  | nil =>
    injection h with h2
    simp [← h2]
  | cons d ds ih =>
    obtain ⟨s, ss', _, hds, hout⟩ := normalizeAll_cons_ok_inv d ds ss h
    rw [hout]
    simp [ih ss' hds]

theorem create_mixed_cons_ok (name : String) (d : Descriptor) (ds : List Descriptor)
    (ss : List Selector) (h : normalizeAll (d :: ds) = Except.ok ss) :
    SelectorGroup.create_mixed name (d :: ds) = Except.ok ⟨name, ss⟩ := by
  simp [SelectorGroup.create_mixed, h]

theorem create_mixed_cons_err (name : String) (d : Descriptor) (ds : List Descriptor)
    (e : ConstructionError) (h : normalizeAll (d :: ds) = Except.error e) :
    SelectorGroup.create_mixed name (d :: ds) = Except.error e := by
  simp [SelectorGroup.create_mixed, h]

theorem normalizeDescriptor_ok_of_valid (d : Descriptor)
    (hd : Descriptor.isValid d = true) :
    ∃ s, normalizeDescriptor d = Except.ok s := by
  cases d with
  | str s => exact ⟨⟨SelectorType.CSS, s, none⟩, rfl⟩
  | pairKind v k => exact ⟨⟨k, v, none⟩, rfl⟩
  | pairToken v t =>
    cases hpk : parseKindToken t with
    | none => simp [Descriptor.isValid, hpk] at hd
    | some k => exact ⟨⟨k, v, none⟩, by simp [normalizeDescriptor, hpk]⟩
  | sel s => exact ⟨s, rfl⟩
  | other => simp [Descriptor.isValid] at hd

/-- C6: two Selectors are equal iff their kinds and values match; the timeout
field does not participate in equality; `css ".x"` equals `Selector(CSS, ".x")`
and does not equal `xpath ".x"`. -/
theorem selector_equality (a b : Selector) (t1 t2 : Option Nat) :
    (Selector.equals a b = true ↔ a.type = b.type ∧ a.value = b.value) ∧
    Selector.equals ⟨a.type, a.value, t1⟩ ⟨b.type, b.value, t2⟩ = Selector.equals a b ∧
    Selector.equals (css ".x" none) ⟨SelectorType.CSS, ".x", none⟩ = true ∧
    Selector.equals (css ".x" none) (xpath ".x" none) = false := by
  refine ⟨?_, rfl, by decide, by decide⟩
  simp [Selector.equals]

/-- C7: `css`, `xpath` and `text` build Selectors of the matching kind storing
the given value; exactly one of the predicates `is_css`/`is_xpath`/`is_text`
is true per Selector, determined solely by its kind. -/
theorem selector_helpers (v : String) (t : Option Nat) (s s' : Selector)
    (h : s.type = s'.type) :
    (css v t).type = SelectorType.CSS ∧ (css v t).value = v ∧
    (xpath v t).type = SelectorType.XPATH ∧ (xpath v t).value = v ∧
    (text v t).type = SelectorType.TEXT ∧ (text v t).value = v ∧
    s.is_css.toNat + s.is_xpath.toNat + s.is_text.toNat = 1 ∧
    (s.is_css = s'.is_css ∧ s.is_xpath = s'.is_xpath ∧ s.is_text = s'.is_text) := by
  refine ⟨rfl, rfl, rfl, rfl, rfl, rfl, ?_, ?_, ?_, ?_⟩
  · cases htype : s.type <;>
      simp only [Selector.is_css, Selector.is_xpath, Selector.is_text, htype] <;>
      decide
  · simp [Selector.is_css, h]
  · simp [Selector.is_xpath, h]
  · simp [Selector.is_text, h]

/-- Witness for C7 at concrete inputs. -/
theorem selector_helpers_witness :
    (css ".x" none).type = SelectorType.CSS ∧ (css ".x" none).value = ".x" ∧
    (xpath ".x" none).type = SelectorType.XPATH ∧ (xpath ".x" none).value = ".x" ∧
    (text ".x" none).type = SelectorType.TEXT ∧ (text ".x" none).value = ".x" ∧
    (css ".a" none).is_css.toNat + (css ".a" none).is_xpath.toNat +
      (css ".a" none).is_text.toNat = 1 ∧
    ((css ".a" none).is_css = (css ".b" (some 3)).is_css ∧
     (css ".a" none).is_xpath = (css ".b" (some 3)).is_xpath ∧
     (css ".a" none).is_text = (css ".b" (some 3)).is_text) :=
  selector_helpers ".x" none (css ".a" none) (css ".b" (some 3)) rfl

/-- C8: the canonical string form is the single fixed rendering
`"<kind>:<value>"`: one separator for all Selectors, and a pure function of
kind and value (the timeout does not influence it). -/
theorem canonical_string_form (s s' : Selector) (h1 : s.type = s'.type)
    (h2 : s.value = s'.value) :
    Selector.strForm s = s.type.token ++ ":" ++ s.value ∧
    Selector.strForm s = Selector.strForm s' :=
  ⟨rfl, by simp [Selector.strForm, h1, h2]⟩

/-- Witness for C8 at concrete inputs (two Selectors equal up to timeout). -/
theorem canonical_string_form_witness :
    Selector.strForm (css ".x" (some 5)) =
      (css ".x" (some 5)).type.token ++ ":" ++ (css ".x" (some 5)).value ∧
    Selector.strForm (css ".x" (some 5)) = Selector.strForm (css ".x" none) :=
  canonical_string_form (css ".x" (some 5)) (css ".x" none) rfl rfl

/-- C10: a Selector constructed without an explicit timeout argument stores the
timeout `none`, and `get_timeout` returns exactly the stored timeout. -/
theorem timeout_default_and_accessor (ty : SelectorType) (v : String)
    (t : Option Nat) :
    (Selector.mkDefault ty v).timeout = none ∧
    (Selector.mkDefault ty v).get_timeout = none ∧
    Selector.get_timeout ⟨ty, v, t⟩ = t ∧
    (css v t).get_timeout = t ∧ (xpath v t).get_timeout = t ∧
    (text v t).get_timeout = t :=
  ⟨rfl, rfl, rfl, rfl, rfl, rfl⟩

/-- C4: constructing a group (primary or mixed) with zero selectors/descriptors
fails with `EmptyGroupError`, and every successfully constructed group has a
non-empty selector sequence. -/
theorem empty_group_rejected (name : String) :
    SelectorGroup.create name [] = Except.error (ConstructionError.emptyGroup name) ∧
    SelectorGroup.create_mixed name [] =
      Except.error (ConstructionError.emptyGroup name) ∧
    (∀ sels g, SelectorGroup.create name sels = Except.ok g → g.selectors ≠ []) ∧
    (∀ ds g, SelectorGroup.create_mixed name ds = Except.ok g → g.selectors ≠ []) := by
  refine ⟨rfl, rfl, ?_, ?_⟩
  · intro sels g hg
    cases sels with
    | nil => exact absurd hg (by simp [SelectorGroup.create])
    | cons s rest =>
      have hg2 : Except.ok (SelectorGroup.mk name (s :: rest)) = Except.ok g := hg
      injection hg2 with h2
      rw [← h2]
      simp
  · intro ds g hg
    cases ds with
    | nil => exact absurd hg (by simp [SelectorGroup.create_mixed])
    | cons d ds' =>
      cases hna : normalizeAll (d :: ds') with
      | error e =>
        rw [create_mixed_cons_err name d ds' e hna] at hg
        simp at hg
      | ok ss =>
        rw [create_mixed_cons_ok name d ds' ss hna] at hg
        injection hg with h2
        rw [← h2]
        have hlen := normalizeAll_length (d :: ds') ss hna
        intro hss
        simp only [] at hss
        rw [hss] at hlen
        simp at hlen

theorem executeSteps_cons_ok {ε α : Type} (name : String)
    (resolve : Selector → Result ε α) (s : Selector) (rest : List Selector)
    (v : α) (h : resolve s = Result.ok v) :
    executeSteps name resolve (s :: rest) = ([s], Result.ok v) := by
  simp [executeSteps, h]

theorem executeSteps_cons_err {ε α : Type} (name : String)
    (resolve : Selector → Result ε α) (s : Selector) (rest : List Selector)
    (e : ε) (h : resolve s = Result.error e) :
    executeSteps name resolve (s :: rest) =
      (s :: (executeSteps name resolve rest).1,
       (executeSteps name resolve rest).2) := by
  simp [executeSteps, h]

theorem executeSteps_all_fail {ε α : Type} (name : String)
    (resolve : Selector → Result ε α) (l : List Selector)
    (hfail : ∀ s ∈ l, (resolve s).isOk = false) :
    executeSteps name resolve l = (l, Result.error ⟨aggregateMessage name⟩) := by
  induction l with
  | nil => rfl
  | cons s rest ih =>
    obtain ⟨e, he⟩ := isOk_false_exists (hfail s (by simp))
    rw [executeSteps_cons_err name resolve s rest e he,
        ih (fun x hx => hfail x (by simp [hx]))]

theorem executeSteps_first_success {ε α : Type} (name : String)
    (resolve : Selector → Result ε α) (l : List Selector) (k : Nat)
    (hk : k < l.length)
    (hsucc : (resolve (l.get ⟨k, hk⟩)).isOk = true)
    (hmin : ∀ j (hj : j < k),
      (resolve (l.get ⟨j, Nat.lt_trans hj hk⟩)).isOk = false) :
    (executeSteps name resolve l).1 = l.take (k + 1) ∧
    ∃ v, resolve (l.get ⟨k, hk⟩) = Result.ok v ∧
      (executeSteps name resolve l).2 = Result.ok v := by
  induction l generalizing k with
  | nil => exact absurd hk (by simp)
  | cons s rest ih =>
    cases k with
    | zero =>
      obtain ⟨v, hv⟩ := isOk_true_exists hsucc
      have hv2 : resolve s = Result.ok v := hv
      rw [executeSteps_cons_ok name resolve s rest v hv2]
      exact ⟨by simp, v, hv, rfl⟩
    | succ k =>
      have h0 : (resolve s).isOk = false := hmin 0 (Nat.succ_pos k)
      obtain ⟨e, he⟩ := isOk_false_exists h0
      rw [executeSteps_cons_err name resolve s rest e he]
      have hk2 : k < rest.length := Nat.lt_of_succ_lt_succ hk
      have hsucc2 : (resolve (rest.get ⟨k, hk2⟩)).isOk = true := hsucc
      have hmin2 : ∀ j (hj : j < k),
          (resolve (rest.get ⟨j, Nat.lt_trans hj hk2⟩)).isOk = false :=
        fun j hj => hmin (j + 1) (Nat.succ_lt_succ hj)
      obtain ⟨htake, v, hv, hres⟩ := ih k hk2 hsucc2 hmin2
      refine ⟨?_, v, hv, hres⟩
      simp [List.take_succ_cons, htake]

/-- C1: for every SelectorGroup and resolve function, if `k` is the least
index whose selector resolves successfully, then `execute` invokes `resolve`
exactly `k + 1` times, on the stored selectors at indices `0..k` in stored
order, and returns that success value unchanged; no later selector is tried. -/
theorem execute_first_success {ε α : Type} (g : SelectorGroup)
    (resolve : Selector → Result ε α) (k : Nat) (hk : k < g.selectors.length)
    (hsucc : (resolve (g.selectors.get ⟨k, hk⟩)).isOk = true)
    (hmin : ∀ j (hj : j < k),
      (resolve (g.selectors.get ⟨j, Nat.lt_trans hj hk⟩)).isOk = false) :
    g.attempts resolve = g.selectors.take (k + 1) ∧
    (g.attempts resolve).length = k + 1 ∧
    ∃ v, resolve (g.selectors.get ⟨k, hk⟩) = Result.ok v ∧
      g.execute resolve = Result.ok v := by
  obtain ⟨htake, v, hv, hres⟩ :=
    executeSteps_first_success g.name resolve g.selectors k hk hsucc hmin
  refine ⟨htake, ?_, v, hv, hres⟩
  show (executeSteps g.name resolve g.selectors).1.length = k + 1
  rw [htake, List.length_take]
  omega

/-- Witness for C1: a two-selector group whose second selector is the first to
succeed; `resolve` is invoked exactly twice, in order, and the success value
"X" is passed through. -/
theorem execute_first_success_witness :
    (SelectorGroup.mk "login" [css ".a" none, css ".b" none]).attempts demoResolve =
      [css ".a" none, css ".b" none].take 2 ∧
    ((SelectorGroup.mk "login" [css ".a" none, css ".b" none]).attempts
      demoResolve).length = 2 ∧
    ∃ v, demoResolve ([css ".a" none, css ".b" none].get ⟨1, by decide⟩) =
        Result.ok v ∧
      (SelectorGroup.mk "login" [css ".a" none, css ".b" none]).execute demoResolve =
        Result.ok v :=
  execute_first_success (SelectorGroup.mk "login" [css ".a" none, css ".b" none])
    demoResolve 1 (by decide) (by decide) (by decide)

/-- C2: if every selector of the group fails, `execute` invokes `resolve` once
per selector in stored order and returns a single aggregate failure whose
message contains the literal text `All selectors in group '<name>' failed`;
no per-selector failure reaches the caller (the returned error type only
carries the aggregate message). -/
theorem execute_all_fail {ε α : Type} (g : SelectorGroup)
    (resolve : Selector → Result ε α)
    (hfail : ∀ s ∈ g.selectors, (resolve s).isOk = false) :
    g.attempts resolve = g.selectors ∧
    (g.attempts resolve).length = g.selectors.length ∧
    g.execute resolve =
      Result.error ⟨"All selectors in group '" ++ g.name ++ "' failed"⟩ := by
  have h := executeSteps_all_fail g.name resolve g.selectors hfail
  refine ⟨?_, ?_, ?_⟩
  · show (executeSteps g.name resolve g.selectors).1 = g.selectors
    rw [h]
  · show (executeSteps g.name resolve g.selectors).1.length = g.selectors.length
    rw [h]
  · show (executeSteps g.name resolve g.selectors).2 =
      Result.error ⟨"All selectors in group '" ++ g.name ++ "' failed"⟩
    rw [h]
    rfl

/-- Witness for C2: a two-selector group where both selectors fail; `resolve`
is invoked exactly twice and the aggregate failure names the group. -/
theorem execute_all_fail_witness :
    (SelectorGroup.mk "login" [css ".a" none, css ".b" none]).attempts failResolve =
      [css ".a" none, css ".b" none] ∧
    ((SelectorGroup.mk "login" [css ".a" none, css ".b" none]).attempts
      failResolve).length = [css ".a" none, css ".b" none].length ∧
    (SelectorGroup.mk "login" [css ".a" none, css ".b" none]).execute failResolve =
      Result.error ⟨"All selectors in group '" ++ "login" ++ "' failed"⟩ :=
  execute_all_fail (SelectorGroup.mk "login" [css ".a" none, css ".b" none])
    failResolve (by decide)

theorem normalizeAll_ok_of_valid (ds : List Descriptor)
    (h : ∀ d ∈ ds, Descriptor.isValid d = true) :
    ∃ ss, normalizeAll ds = Except.ok ss ∧ ss.length = ds.length ∧
      ∀ p ∈ ds.zip ss, normalizeDescriptor p.1 = Except.ok p.2 := by
  induction ds with
  | nil => exact ⟨[], rfl, rfl, by simp⟩
  | cons d ds ih =>
    obtain ⟨s, hs⟩ := normalizeDescriptor_ok_of_valid d (h d (by simp))
    obtain ⟨ss, hss, hlen, hzip⟩ := ih (fun x hx => h x (by simp [hx]))
    refine ⟨s :: ss, normalizeAll_cons_ok d ds s ss hs hss, by simp [hlen], ?_⟩
    intro p hp
    rw [List.zip_cons_cons] at hp
    rcases List.mem_cons.mp hp with h1 | h2
    · rw [h1]
      exact hs
    · exact hzip p h2

/-- C3: a mixed construction whose descriptors each have a valid shape (a bare
string, a pair with a known kind token, or an already-built Selector) succeeds
and yields a group whose selectors appear in input order: a bare string gives
`Selector(CSS, thatString)`, a valid pair gives a Selector of the matching
kind and value, and an already-built Selector passes through unchanged. -/
theorem create_mixed_valid_claim (name : String) (ds : List Descriptor)
    (hne : ds ≠ [])
    (hvalid : ∀ d ∈ ds, Descriptor.isValid d = true) :
    ∃ g, SelectorGroup.create_mixed name ds = Except.ok g ∧ g.name = name ∧
      g.selectors.length = ds.length ∧
      ∀ p ∈ ds.zip g.selectors,
        (∀ s, p.1 = Descriptor.str s → p.2 = ⟨SelectorType.CSS, s, none⟩) ∧
        (∀ v k, p.1 = Descriptor.pairKind v k → p.2 = ⟨k, v, none⟩) ∧
        (∀ v t, p.1 = Descriptor.pairToken v t →
          ∃ k, parseKindToken t = some k ∧ p.2 = ⟨k, v, none⟩) ∧
        (∀ s, p.1 = Descriptor.sel s → p.2 = s) := by
  obtain ⟨ss, hss, hlen, hzip⟩ := normalizeAll_ok_of_valid ds hvalid
  have hcm : SelectorGroup.create_mixed name ds = Except.ok ⟨name, ss⟩ := by
    cases ds with
    | nil => exact absurd rfl hne
    | cons d ds2 => exact create_mixed_cons_ok name d ds2 ss hss
  refine ⟨⟨name, ss⟩, hcm, rfl, hlen, ?_⟩
  intro p hp
  have hnorm := hzip p hp
  refine ⟨?_, ?_, ?_, ?_⟩
  · intro s hs
    rw [hs] at hnorm
    injection hnorm with h2
    exact h2.symm
  · intro v k hk
    rw [hk] at hnorm
    injection hnorm with h2
    exact h2.symm
  · intro v t ht
    rw [ht] at hnorm
    cases hpk : parseKindToken t with
    | none =>
      rw [show normalizeDescriptor (Descriptor.pairToken v t) =
            Except.error (ConstructionError.invalidSelectorKind t) from by
          simp [normalizeDescriptor, hpk]] at hnorm
      simp at hnorm
    | some k =>
      rw [show normalizeDescriptor (Descriptor.pairToken v t) =
            Except.ok ⟨k, v, none⟩ from by
          simp [normalizeDescriptor, hpk]] at hnorm
      injection hnorm with h2
      exact ⟨k, rfl, h2.symm⟩
  · intro s hs
    rw [hs] at hnorm
    injection hnorm with h2
    exact h2.symm

/-- Witness for C3: the spec's mixed-normalization scenario, four descriptors
of the four valid shapes. -/
theorem create_mixed_valid_witness :
    ∃ g, SelectorGroup.create_mixed "mixed" demoDescriptors = Except.ok g ∧
      g.name = "mixed" ∧
      g.selectors.length = demoDescriptors.length ∧
      ∀ p ∈ demoDescriptors.zip g.selectors,
        (∀ s, p.1 = Descriptor.str s → p.2 = ⟨SelectorType.CSS, s, none⟩) ∧
        (∀ v k, p.1 = Descriptor.pairKind v k → p.2 = ⟨k, v, none⟩) ∧
        (∀ v t, p.1 = Descriptor.pairToken v t →
          ∃ k, parseKindToken t = some k ∧ p.2 = ⟨k, v, none⟩) ∧
        (∀ s, p.1 = Descriptor.sel s → p.2 = s) :=
  create_mixed_valid_claim "mixed" demoDescriptors (by decide) (by decide)

theorem normalizeAll_invalid_kind (ds : List Descriptor)
    (hshape : ∀ d ∈ ds, d ≠ Descriptor.other)
    (hbad : ∃ d ∈ ds, ∃ v t, d = Descriptor.pairToken v t ∧ parseKindToken t = none) :
    ∃ t, parseKindToken t = none ∧
      normalizeAll ds = Except.error (ConstructionError.invalidSelectorKind t) := by
  induction ds with
  | nil =>
    obtain ⟨d, hd, _⟩ := hbad
    simp at hd
  | cons d ds ih =>
    have htail : (∃ d2 ∈ ds, ∃ v t, d2 = Descriptor.pairToken v t ∧
        parseKindToken t = none) →
        ∃ t, parseKindToken t = none ∧
          normalizeAll ds = Except.error (ConstructionError.invalidSelectorKind t) :=
      fun hb => ih (fun x hx => hshape x (by simp [hx])) hb
    cases d with
    | other => exact absurd rfl (hshape Descriptor.other (by simp))
    | pairToken v t =>
      cases hpk : parseKindToken t with
      | none =>
        refine ⟨t, hpk, normalizeAll_cons_err_head (Descriptor.pairToken v t) ds
          (ConstructionError.invalidSelectorKind t) ?_⟩
        simp [normalizeDescriptor, hpk]
      | some k =>
        obtain ⟨d2, hd2, v2, t2, hdt, hnone⟩ := hbad
        rcases List.mem_cons.mp hd2 with h1 | h2
        · rw [h1] at hdt
          injection hdt with hv2 ht2
          rw [← ht2] at hnone
          rw [hnone] at hpk
          simp at hpk
        · obtain ⟨t3, ht3, hna⟩ := htail ⟨d2, h2, v2, t2, hdt, hnone⟩
          refine ⟨t3, ht3, normalizeAll_cons_err_tail (Descriptor.pairToken v t) ds
            ⟨k, v, none⟩ (ConstructionError.invalidSelectorKind t3) ?_ hna⟩
          simp [normalizeDescriptor, hpk]
    | str s =>
      obtain ⟨d2, hd2, v2, t2, hdt, hnone⟩ := hbad
      rcases List.mem_cons.mp hd2 with h1 | h2
      · rw [h1] at hdt
        simp at hdt
      · obtain ⟨t3, ht3, hna⟩ := htail ⟨d2, h2, v2, t2, hdt, hnone⟩
        exact ⟨t3, ht3, normalizeAll_cons_err_tail (Descriptor.str s) ds
          ⟨SelectorType.CSS, s, none⟩ (ConstructionError.invalidSelectorKind t3)
          rfl hna⟩
    | pairKind v k =>
      obtain ⟨d2, hd2, v2, t2, hdt, hnone⟩ := hbad
      rcases List.mem_cons.mp hd2 with h1 | h2
      · rw [h1] at hdt
        simp at hdt
      · obtain ⟨t3, ht3, hna⟩ := htail ⟨d2, h2, v2, t2, hdt, hnone⟩
        exact ⟨t3, ht3, normalizeAll_cons_err_tail (Descriptor.pairKind v k) ds
          ⟨k, v, none⟩ (ConstructionError.invalidSelectorKind t3) rfl hna⟩
    | sel s =>
      obtain ⟨d2, hd2, v2, t2, hdt, hnone⟩ := hbad
      rcases List.mem_cons.mp hd2 with h1 | h2
      · rw [h1] at hdt
        simp at hdt
      · obtain ⟨t3, ht3, hna⟩ := htail ⟨d2, h2, v2, t2, hdt, hnone⟩
        exact ⟨t3, ht3, normalizeAll_cons_err_tail (Descriptor.sel s) ds s
          (ConstructionError.invalidSelectorKind t3) rfl hna⟩

/-- C5: a mixed construction whose descriptors all have one of the accepted
shapes but where some pair carries an unknown kind token fails with
`InvalidSelectorKind`; the construction returns an error, so no group (not
even one built from the earlier valid descriptors) is observable. -/
theorem create_mixed_invalid_kind_claim (name : String) (ds : List Descriptor)
    (hshape : ∀ d ∈ ds, d ≠ Descriptor.other)
    (hbad : ∃ d ∈ ds, ∃ v t, d = Descriptor.pairToken v t ∧ parseKindToken t = none) :
    ∃ t, parseKindToken t = none ∧
      SelectorGroup.create_mixed name ds =
        Except.error (ConstructionError.invalidSelectorKind t) := by
  cases ds with
  | nil =>
    obtain ⟨d, hd, _⟩ := hbad
    simp at hd
  | cons d ds2 =>
    obtain ⟨t, ht, hna⟩ := normalizeAll_invalid_kind (d :: ds2) hshape hbad
    exact ⟨t, ht, create_mixed_cons_err name d ds2 _ hna⟩

/-- Witness for C5: descriptors containing a pair with the unknown kind token
"not-a-kind"; the construction fails with `InvalidSelectorKind`. -/
theorem create_mixed_invalid_kind_witness :
    ∃ t, parseKindToken t = none ∧
      SelectorGroup.create_mixed "bad" badDescriptors =
        Except.error (ConstructionError.invalidSelectorKind t) :=
  create_mixed_invalid_kind_claim "bad" badDescriptors (by decide)
    ⟨Descriptor.pairToken "//p" "not-a-kind", by decide, "//p", "not-a-kind",
      rfl, by decide⟩

theorem normalizeAll_map_sel (sels : List Selector) :
    normalizeAll (sels.map Descriptor.sel) = Except.ok sels := by
  induction sels with
  | nil => rfl
  | cons s rest ih =>
    exact normalizeAll_cons_ok (Descriptor.sel s) (rest.map Descriptor.sel)
      s rest rfl ih

/-- C9: for every name and non-empty list of already-built Selectors, the
factory `create` and the descriptor-normalizing constructor produce observably
equal groups: same name and same selectors in the same order. -/
theorem create_eq_constructor (name : String) (sels : List Selector)
    (hne : sels ≠ []) :
    ∃ g1 g2, SelectorGroup.create name sels = Except.ok g1 ∧
      SelectorGroup.create_mixed name (sels.map Descriptor.sel) = Except.ok g2 ∧
      g1.name = g2.name ∧ g1.selectors = g2.selectors := by
  cases sels with
  | nil => exact absurd rfl hne
  | cons s rest =>
    refine ⟨⟨name, s :: rest⟩, ⟨name, s :: rest⟩, rfl, ?_, rfl, rfl⟩
    exact create_mixed_cons_ok name (Descriptor.sel s) (rest.map Descriptor.sel)
      (s :: rest) (normalizeAll_map_sel (s :: rest))

/-- Witness for C9: a concrete two-selector group built both ways. -/
theorem create_eq_constructor_witness :
    ∃ g1 g2, SelectorGroup.create "pair" [css ".a" none, xpath "//p" none] =
        Except.ok g1 ∧
      SelectorGroup.create_mixed "pair"
        ([css ".a" none, xpath "//p" none].map Descriptor.sel) = Except.ok g2 ∧
      g1.name = g2.name ∧ g1.selectors = g2.selectors :=
  create_eq_constructor "pair" [css ".a" none, xpath "//p" none] (by decide)

end Silk
